import Mathlib

/-!
Shallow embedding of `src/voskjshttp.js`, the request-orchestration layer of
the voskjs HTTP transcription server.  Pure JavaScript control flow becomes
total Lean functions; the side effects of a request handler (setting the
response content type, accumulating body chunks, bumping the diagnostic
counter, invoking the recognition engine, writing the response) are recorded
as an explicit trace of actions.  `JSON.parse` is modelled by a fuel-bounded
JSON parser `jsonParse`; fuel is proportional to the input length, enough for
every input whose nesting depth is bounded by its length.
-/

/-- JSON values.  Number literals keep their raw lexeme: the server never
computes with client numbers, only checks syntactic validity. -/
inductive Json where
  | null : Json
  | bool (b : Bool) : Json
  | num (lexeme : String) : Json
  | str (s : String) : Json
  | arr (items : List Json) : Json
  | obj (fields : List (String × Json)) : Json

/-- The two brace characters, written via code points to keep string literals
free of literal braces. -/
def lbrace : Char := Char.ofNat 123

def rbrace : Char := Char.ofNat 125

def isWsChar (c : Char) : Bool :=
  c = ' ' || c = '\t' || c = '\n' || c = '\r'

def skipWs : List Char → List Char
  | [] => []
  | c :: rest => if isWsChar c then skipWs rest else c :: rest

def isHexChar (c : Char) : Bool :=
  c.isDigit || ('a' ≤ c && c ≤ 'f') || ('A' ≤ c && c ≤ 'F')

/-- Parse the remainder of a JSON string literal (the opening quote already
consumed), returning the raw content and the rest of the input. -/
def parseStringRest : Nat → List Char → Option (String × List Char)
  | 0, _ => none
  | Nat.succ n, cs =>
    match cs with
    | [] => none
    | c :: rest =>
      if c = '"' then some ("", rest)
      else if c = '\\' then
        match rest with
        | [] => none
        | e :: rest2 =>
          if e = '"' || e = '\\' || e = '/' || e = 'b' || e = 'f' ||
             e = 'n' || e = 'r' || e = 't' then
            (parseStringRest n rest2).map
              (fun p => (String.singleton c ++ String.singleton e ++ p.1, p.2))
          else if e = 'u' then
            match rest2 with
            | h1 :: h2 :: h3 :: h4 :: rest3 =>
              if isHexChar h1 && isHexChar h2 && isHexChar h3 && isHexChar h4 then
                (parseStringRest n rest3).map
                  (fun p => ("\\u" ++ String.mk [h1, h2, h3, h4] ++ p.1, p.2))
              else none
            | _ => none
          else none
      else if c.val < 32 then none
      else (parseStringRest n rest).map
        (fun p => (String.singleton c ++ p.1, p.2))

/-- JSON number lexeme: optional minus, integer part without leading zeros,
optional fraction, optional exponent. -/
def parseNumberLex (cs : List Char) : Option (String × List Char) :=
  let signed : List Char × List Char :=
    match cs with
    | '-' :: rest => (['-'], rest)
    | _ => ([], cs)
  let afterSign := signed.2
  let intPart : Option (List Char × List Char) :=
    match afterSign with
    | '0' :: rest => some (['0'], rest)
    | c :: rest =>
      if c.isDigit then
        let sp := rest.span Char.isDigit
        some (c :: sp.1, sp.2)
      else none
    | [] => none
  match intPart with
  | none => none
  | some (ip, rest1) =>
    let fracPart : Option (List Char × List Char) :=
      match rest1 with
      | '.' :: rest2 =>
        let sp := rest2.span Char.isDigit
        if sp.1.isEmpty then none else some ('.' :: sp.1, sp.2)
      | _ => some ([], rest1)
    match fracPart with
    | none => none
    | some (fp, rest2) =>
      let expPart : Option (List Char × List Char) :=
        match rest2 with
        | e :: rest3 =>
          if e = 'e' || e = 'E' then
            let signedExp : List Char × List Char :=
              match rest3 with
              | s :: rest4 => if s = '+' || s = '-' then ([s], rest4) else ([], rest3)
              | [] => ([], rest3)
            let sp := signedExp.2.span Char.isDigit
            if sp.1.isEmpty then none
            else some (e :: (signedExp.1 ++ sp.1), sp.2)
          else some ([], rest2)
        | [] => some ([], rest2)
      match expPart with
      | none => none
      | some (ep, rest3) => some (String.mk (ip ++ fp ++ ep), rest3)

mutual

def parseValue : Nat → List Char → Option (Json × List Char)
  | 0, _ => none
  | Nat.succ n, cs =>
    match skipWs cs with
    | [] => none
    | c :: rest =>
      if c = '"' then
        (parseStringRest (Nat.succ n) rest).map (fun p => (Json.str p.1, p.2))
      else if c = '[' then
        match skipWs rest with
        | ']' :: rest2 => some (Json.arr [], rest2)
        | rest2 => parseElements n rest2 []
      else if c = lbrace then
        match skipWs rest with
        | d :: rest2 =>
          if d = rbrace then some (Json.obj [], rest2)
          else parseMembers n (d :: rest2) []
        | [] => none
      else
        match c :: rest with
        | 't' :: 'r' :: 'u' :: 'e' :: rest2 => some (Json.bool true, rest2)
        | 'f' :: 'a' :: 'l' :: 's' :: 'e' :: rest2 => some (Json.bool false, rest2)
        | 'n' :: 'u' :: 'l' :: 'l' :: rest2 => some (Json.null, rest2)
        | cs2 => (parseNumberLex cs2).map (fun p => (Json.num p.1, p.2))

def parseElements : Nat → List Char → List Json → Option (Json × List Char)
  | 0, _, _ => none
  | Nat.succ n, cs, acc =>
    match parseValue n cs with
    | none => none
    | some (v, rest) =>
      match skipWs rest with
      | ',' :: rest2 => parseElements n rest2 (acc ++ [v])
      | ']' :: rest2 => some (Json.arr (acc ++ [v]), rest2)
      | _ => none

def parseMembers : Nat → List Char → List (String × Json) →
    Option (Json × List Char)
  | 0, _, _ => none
  | Nat.succ n, cs, acc =>
    match skipWs cs with
    | '"' :: rest =>
      match parseStringRest (Nat.succ n) rest with
      | none => none
      | some (key, rest2) =>
        match skipWs rest2 with
        | ':' :: rest3 =>
          match parseValue n rest3 with
          | none => none
          | some (v, rest4) =>
            match skipWs rest4 with
            | ',' :: rest5 => parseMembers n rest5 (acc ++ [(key, v)])
            | d :: rest5 =>
              if d = rbrace then some (Json.obj (acc ++ [(key, v)]), rest5)
              else none
            | [] => none
        | _ => none
    | _ => none

end

/-- Model of `JSON.parse`: parse one JSON value, require only trailing
whitespace after it. -/
def jsonParse (s : String) : Option Json :=
  let cs := s.toList
  match parseValue (2 * cs.length + 2) cs with
  | none => none
  | some (v, rest) =>
    match skipWs rest with
    | [] => some v
    | _ => none

/-!
## Server data model

The mutable globals of the script (`modelName`, `debug`, the loaded `model`
handle) become a read-only `ServerCtx`; the two engine entry points
`transcriptFromFile` and `transcriptFromBuffer` become an `Engine` record of
functions returning `Except`, since both may throw.  A request handler
produces a `List Act`, the ordered trace of its observable effects.
-/

/-- A request id: the client-supplied string, or the server timestamp
(a JavaScript number) when the client supplied none. -/
inductive IdVal where
  | str (s : String)
  | num (n : Nat)

def idToString : IdVal → String
  | IdVal.str s => s
  | IdVal.num n => toString n

def idJson : IdVal → Json
  | IdVal.str s => Json.str s
  | IdVal.num n => Json.num (toString n)

/-- JavaScript truthiness of an optional query-string value: an absent
parameter and the empty string are falsy, every other string is truthy. -/
def truthy : Option String → Bool
  | some s => !s.isEmpty
  | none => false

/-- `const id = requestedId ? requestedId : currentTime` -/
def chooseId (requestedId : Option String) (currentTime : Nat) : IdVal :=
  match requestedId with
  | some s => if s.isEmpty then IdVal.num currentTime else IdVal.str s
  | none => IdVal.num currentTime

/-- What the engine returns: `transcriptData.latency` and the fields of
`transcriptData.result`, spread into the response object. -/
structure EngineResult where
  latency : Nat
  result : List (String × Json)

/-- The Engine Adapter (`transcriptFromFile` / `transcriptFromBuffer` from
`./voskjs`): external collaborators that may throw, hence `Except`.  The
second argument models the `{grammar}` options object, `none` when the
grammar was `undefined`.  Audio bytes are `List Nat`. -/
structure Engine where
  transcriptFromFile : String → Option Json → Except String EngineResult
  transcriptFromBuffer : List Nat → Option Json → Except String EngineResult

/-- The module globals set once in `main`: `modelName` (basename of the model
directory), `debug`, and the string interpolation `&dollar;{model}` of the
loaded model handle used in the 404 message. -/
structure ServerCtx where
  modelName : String
  modelHandleStr : String
  debug : Bool

/-- The query-string parameters the handlers read from
`url.parse(req.url, true).query`.  A parameter present with an empty value is
`some ""`, which is falsy in JavaScript. -/
structure Query where
  model : Option String
  speech : Option String
  grammar : Option String
  id : Option String

inductive Method where
  | GET
  | POST
  | other (verb : String)

/-- One inbound HTTP exchange: the raw `req.url`, the method, the parsed
query, the value of `unixTimeMsecs()` at the start of handling, and the body
chunks delivered by the request stream in arrival order. -/
structure HttpRequest where
  url : String
  method : Method
  query : Query
  time : Nat
  chunks : List (List Nat)

/-- Observable effects of handling one request, in execution order. -/
inductive Act where
  | setContentType
  | inc
  | dec
  | accumulate (chunk : List Nat)
  | callEngineFile (file : String) (grammar : Option Json)
  | callEngineBuffer (buf : List Nat) (grammar : Option Json)
  | respondError (status : Nat) (body : String)
  | respondSuccess (fields : List (String × Json))

/-- `req.url.match(/^\/transcript/)`: the anchored regex succeeds exactly
when the raw URL starts with the literal prefix `/transcript`. -/
def matchTranscriptPath (url : String) : Bool :=
  "/transcript".toList.isPrefixOf url.toList

/-- `res.end(&grave;{"error":"&dollar;{message}"}&grave;)`: the error body is
built by raw string interpolation, with no JSON escaping of the message. -/
def errorBody (message : String) : String :=
  "\x7b\"error\":\"" ++ message ++ "\"\x7d"

/-- `errorResponse(message, statusCode, res)` as a trace contribution. -/
def errorResponse (message : String) (statusCode : Nat) : List Act :=
  [Act.respondError statusCode (errorBody message)]

/-- JavaScript object-spread update: assigning an existing key overwrites its
value in place, a new key is appended. -/
def upsert (fields : List (String × Json)) (k : String) (v : Json) :
    List (String × Json) :=
  if fields.any (fun p => p.1 == k) then
    fields.map (fun p => if p.1 == k then (k, v) else p)
  else fields ++ [(k, v)]

/-- Spread `ext` into `base`, left to right, with JavaScript semantics. -/
def spreadInto (base ext : List (String × Json)) : List (String × Json) :=
  ext.foldl (fun acc p => upsert acc p.1 p.2) base

/-- The success envelope
`JSON.stringify({ ...{id}, ...{latency}, ...transcriptData.result })`
as a field list. -/
def successFields (id : IdVal) (latency : Nat)
    (result : List (String × Json)) : List (String × Json) :=
  spreadInto [("id", idJson id), ("latency", Json.num (toString latency))] result

def lookupField (fields : List (String × Json)) (k : String) : Option Json :=
  (fields.find? (fun p => p.1 == k)).map (fun p => p.2)

def hasKey (fields : List (String × Json)) (k : String) : Bool :=
  fields.any (fun p => p.1 == k)

/-- `const grammar = requestedGrammar ? JSON.parse(requestedGrammar) : undefined`:
a falsy grammar parameter yields `undefined`; a truthy one is parsed, and a
parse failure throws (modelled as `Except.error`), landing in the catch
clause of the enclosing handler. -/
def parseGrammarStep (requestedGrammar : Option String) :
    Except String (Option Json) :=
  if truthy requestedGrammar then
    match jsonParse (requestedGrammar.getD "") with
    | some j => Except.ok (some j)
    | none => Except.error "SyntaxError: Unexpected token in JSON"
  else Except.ok none

/-- `responseTranscriptGet`: inside `try`, increment the counter when debug,
parse the grammar, await `transcriptFromFile`, decrement when debug, respond
with the success envelope; any throw lands in `catch`, which answers 415 and
does not decrement. -/
def responseTranscriptGet (ctx : ServerCtx) (eng : Engine) (id : IdVal)
    (requestedFilename : String) (requestedGrammar : Option String) :
    List Act :=
  let pre := if ctx.debug then [Act.inc] else []
  match parseGrammarStep requestedGrammar with
  | Except.error e =>
    pre ++ errorResponse ("id " ++ idToString id ++ " transcript function " ++ e) 415
  | Except.ok grammar =>
    match eng.transcriptFromFile requestedFilename grammar with
    | Except.error e =>
      pre ++ [Act.callEngineFile requestedFilename grammar] ++
        errorResponse ("id " ++ idToString id ++ " transcript function " ++ e) 415
    | Except.ok td =>
      pre ++ [Act.callEngineFile requestedFilename grammar] ++
        (if ctx.debug then [Act.dec] else []) ++
        [Act.respondSuccess (successFields id td.latency td.result)]

/-- `responseTranscriptPost`: same shape as the GET handler, over the
accumulated buffer. -/
def responseTranscriptPost (ctx : ServerCtx) (eng : Engine) (id : IdVal)
    (buffer : List Nat) (requestedGrammar : Option String) : List Act :=
  let pre := if ctx.debug then [Act.inc] else []
  match parseGrammarStep requestedGrammar with
  | Except.error e =>
    pre ++ errorResponse ("id " ++ idToString id ++ " transcript function " ++ e) 415
  | Except.ok grammar =>
    match eng.transcriptFromBuffer buffer grammar with
    | Except.error e =>
      pre ++ [Act.callEngineBuffer buffer grammar] ++
        errorResponse ("id " ++ idToString id ++ " transcript function " ++ e) 415
    | Except.ok td =>
      pre ++ [Act.callEngineBuffer buffer grammar] ++
        (if ctx.debug then [Act.dec] else []) ++
        [Act.respondSuccess (successFields id td.latency td.result)]

/-- `let body = []; req.on('data', chunk => body.push(chunk))`: the chunk
list as accumulated by pushing in arrival order. -/
def bodyAccum (chunks : List (List Nat)) : List (List Nat) :=
  chunks.foldl (fun acc c => acc ++ [c]) []

/-- `Buffer.concat(body)`: concatenation of the buffers in list order. -/
def bufferConcat (bufs : List (List Nat)) : List Nat :=
  bufs.foldl (fun acc b => acc ++ b) []

/-- `requestListener`: set the JSON content type, reject paths not starting
with `/transcript` (405), then dispatch on the method.  GET validates
`speech` (405) then the model name (404) and delegates to the GET handler;
POST validates the model name (404), accumulates the body chunks and
delegates to the POST handler on end-of-stream; any other method gets 405. -/
def requestListener (ctx : ServerCtx) (eng : Engine) (req : HttpRequest) :
    List Act :=
  Act.setContentType ::
  (if !(matchTranscriptPath req.url) then
    errorResponse ("path not allowed " ++ req.url) 405
  else
    match req.method with
    | Method.GET =>
      let q := req.query
      let id := chooseId q.id req.time
      if !(truthy q.speech) then
        errorResponse ("id " ++ idToString id ++
          " \"speech\" attribute not found in the body request") 405
      else if truthy q.model && (q.model.getD "" != ctx.modelName) then
        errorResponse ("id " ++ idToString id ++ " Vosk model " ++
          ctx.modelHandleStr ++ " unknown") 404
      else
        responseTranscriptGet ctx eng id (q.speech.getD "") q.grammar
    | Method.POST =>
      let q := req.query
      let id := chooseId q.id req.time
      if truthy q.model && (q.model.getD "" != ctx.modelName) then
        errorResponse ("id " ++ idToString id ++ " Vosk model " ++
          ctx.modelHandleStr ++ " unknown") 404
      else
        (req.chunks.map Act.accumulate) ++
          responseTranscriptPost ctx eng id (bufferConcat (bodyAccum req.chunks))
            q.grammar
    | Method.other verb =>
      errorResponse ("method not allowed " ++ verb) 405)

/-! ## Trace observables -/

/-- Status code of the first response written on the trace. -/
def respStatus : List Act → Option Nat
  | [] => none
  | a :: rest =>
    match a with
    | Act.respondError s _ => some s
    | Act.respondSuccess _ => some 200
    | _ => respStatus rest

/-- Body of the first error response on the trace. -/
def respErrorBody : List Act → Option String
  | [] => none
  | a :: rest =>
    match a with
    | Act.respondError _ b => some b
    | _ => respErrorBody rest

/-- Field list of the first success response on the trace. -/
def successObj : List Act → Option (List (String × Json))
  | [] => none
  | a :: rest =>
    match a with
    | Act.respondSuccess f => some f
    | _ => successObj rest

def isEngineCall : Act → Bool
  | Act.callEngineFile _ _ => true
  | Act.callEngineBuffer _ _ => true
  | _ => false

/-- Whether the Engine Adapter was invoked anywhere on the trace. -/
def engineInvoked : List Act → Bool
  | [] => false
  | a :: rest => isEngineCall a || engineInvoked rest

/-- The buffers handed to `transcriptFromBuffer`, in call order. -/
def engineBufferArgs : List Act → List (List Nat)
  | [] => []
  | Act.callEngineBuffer b _ :: rest => b :: engineBufferArgs rest
  | _ :: rest => engineBufferArgs rest

/-- The file paths handed to `transcriptFromFile`, in call order. -/
def engineFileArgs : List Act → List String
  | [] => []
  | Act.callEngineFile f _ :: rest => f :: engineFileArgs rest
  | _ :: rest => engineFileArgs rest

/-- How many body chunks were accumulated on the trace. -/
def accumulateCount : List Act → Nat
  | [] => 0
  | Act.accumulate _ :: rest => accumulateCount rest + 1
  | _ :: rest => accumulateCount rest

def counterDelta : Act → Int
  | Act.inc => 1
  | Act.dec => -1
  | _ => 0

/-- Net change to the diagnostic `activeRequests` counter over a trace. -/
def netCounter : List Act → Int
  | [] => 0
  | a :: rest => counterDelta a + netCounter rest

/-!
## Process lifecycle

`helpAndExit` prints usage and calls `process.exit(1)`; `validateArgs` calls
it when the mandatory `--model` argument is falsy, and otherwise returns the
configuration.  `shutdown` logs the signal, frees the model, logs completion
and calls `process.exit(0)`; it is installed for SIGTERM, SIGINT and
`uncaughtException` (the latter logging the error first).
-/

inductive LifeEvent where
  | logLine (s : String)
  | freeModelCall
  | exitProcess (code : Nat)

structure CliArgs where
  model : Option String
  port : Option String
  debug : Option String

structure ServerConfig where
  modelDirectory : String
  port : String

/-- `validateArgs`: exit code 1 (via `helpAndExit`) when `--model` is falsy,
otherwise the configuration with the port defaulted. -/
def validateArgs (args : CliArgs) : Except Nat ServerConfig :=
  if !(truthy args.model) then Except.error 1
  else Except.ok ⟨args.model.getD "", if truthy args.port then args.port.getD "" else "3000"⟩

/-- `shutdown(signal)`: log, free the model, log, exit 0. -/
def shutdown (signal : String) : List LifeEvent :=
  [LifeEvent.logLine (signal ++ " received"),
   LifeEvent.freeModelCall,
   LifeEvent.logLine "Shutdown done",
   LifeEvent.exitProcess 0]

/-- The `uncaughtException` handler: log the error, then `shutdown`. -/
def uncaughtExceptionHandler (err : String) : List LifeEvent :=
  LifeEvent.logLine ("there was an uncaught error: " ++ err) :: shutdown "uncaughtException"

def isFreeModel : LifeEvent → Bool
  | LifeEvent.freeModelCall => true
  | _ => false

def countFreeModel (es : List LifeEvent) : Nat := es.countP isFreeModel

def exitCodes (es : List LifeEvent) : List Nat :=
  es.filterMap fun e =>
    match e with
    | LifeEvent.exitProcess c => some c
    | _ => none

def isExitEvent : LifeEvent → Bool
  | LifeEvent.exitProcess _ => true
  | _ => false

/-- Events executed before the process exits. -/
def eventsBeforeExit (es : List LifeEvent) : List LifeEvent :=
  es.takeWhile (fun e => !(isExitEvent e))

/-!
## Concrete fixtures

A loaded server context, a succeeding engine, and the concrete requests used
by witnesses and counterexamples.
-/

def ctx0 : ServerCtx := ⟨"vosk-model-small-en-us-0.15", "[object Object]", false⟩

def ctxDebug : ServerCtx := ⟨"vosk-model-small-en-us-0.15", "[object Object]", true⟩

def okResult : EngineResult := ⟨50, [("text", Json.str "experience proves this")]⟩

def eng0 : Engine :=
  ⟨fun _ _ => Except.ok okResult, fun _ _ => Except.ok okResult⟩

/-- POST with the body bytes of §8's scenario delivered in two chunks. -/
def postReq0 : HttpRequest :=
  ⟨"/transcript", Method.POST, ⟨none, none, none, none⟩, 1620060067830,
   [[82, 73], [70, 70]]⟩

/-- GET with `model=wrong` and no `speech` parameter. -/
def c2req : HttpRequest :=
  ⟨"/transcript?model=wrong", Method.GET, ⟨some "wrong", none, none, none⟩, 99, []⟩

/-- GET with `speech=a.wav` and `model=wrong` (§8 scenario). -/
def c2wreq : HttpRequest :=
  ⟨"/transcript?speech=a.wav&model=wrong", Method.GET,
   ⟨some "wrong", some "a.wav", none, none⟩, 42, []⟩

/-- GET with no `speech` parameter and a client-supplied id. -/
def c3wreq : HttpRequest :=
  ⟨"/transcript", Method.GET, ⟨none, none, none, some "7"⟩, 99, []⟩

/-- GET with valid `speech` and a syntactically invalid grammar, under debug. -/
def c4req : HttpRequest :=
  ⟨"/transcript?speech=a.wav&grammar=[", Method.GET,
   ⟨none, some "a.wav", some "[", none⟩, 7, []⟩

/-- GET with valid `speech` and no grammar, under debug. -/
def c4okReq : HttpRequest :=
  ⟨"/transcript?speech=a.wav", Method.GET, ⟨none, some "a.wav", none, none⟩, 8, []⟩

/-- GET whose `grammar` parameter is present but empty, hence falsy. -/
def c5req : HttpRequest :=
  ⟨"/transcript?speech=a.wav&grammar=", Method.GET,
   ⟨none, some "a.wav", some "", none⟩, 5, []⟩

/-- GET with valid `speech` and a syntactically invalid grammar. -/
def c5wreq : HttpRequest :=
  ⟨"/transcript?speech=a.wav&grammar=[", Method.GET,
   ⟨none, some "a.wav", some "[", none⟩, 6, []⟩

/-- GET whose `id` parameter is present but empty, hence falsy. -/
def c6req : HttpRequest :=
  ⟨"/transcript?speech=a.wav&id=", Method.GET,
   ⟨none, some "a.wav", none, some ""⟩, 99, []⟩

/-- GET with a client-supplied non-empty id. -/
def c6wreq : HttpRequest :=
  ⟨"/transcript?speech=a.wav&id=tok-1", Method.GET,
   ⟨none, some "a.wav", none, some "tok-1"⟩, 77, []⟩

/-- Request whose path does not start with the transcript prefix. -/
def c8preq : HttpRequest :=
  ⟨"/other", Method.GET, ⟨none, none, none, none⟩, 3, []⟩

/-- Transcript-path request with an unsupported method. -/
def c8mreq : HttpRequest :=
  ⟨"/transcript", Method.other "PUT", ⟨none, none, none, none⟩, 4, []⟩

def argsNoModel : CliArgs := ⟨none, none, none⟩

/-- POST with an invalid grammar and an empty body stream. -/
def c10req : HttpRequest :=
  ⟨"/transcript?grammar=[", Method.POST, ⟨none, none, some "[", none⟩, 5, []⟩

/-- POST with no grammar and an empty body stream. -/
def c10wreq : HttpRequest :=
  ⟨"/transcript", Method.POST, ⟨none, none, none, none⟩, 5, []⟩


/-!
## Support lemmas
-/

theorem foldl_snoc_eq (l : List (List Nat)) (acc : List (List Nat)) :
    l.foldl (fun a c => a ++ [c]) acc = acc ++ l := by
  induction l generalizing acc with
  | nil => simp
  | cons c rest ih => simp [ih]

/-- Pushing chunks in arrival order reproduces the chunk list. -/
theorem bodyAccum_id (chunks : List (List Nat)) : bodyAccum chunks = chunks := by
  simp [bodyAccum, foldl_snoc_eq]

theorem foldl_append_flatten (l : List (List Nat)) (acc : List Nat) :
    l.foldl (fun a b => a ++ b) acc = acc ++ l.flatten := by
  induction l generalizing acc with
  | nil => simp
  | cons b rest ih => simp [ih]

/-- `Buffer.concat` is list concatenation. -/
theorem bufferConcat_flatten (bufs : List (List Nat)) :
    bufferConcat bufs = bufs.flatten := by
  simp [bufferConcat, foldl_append_flatten]

theorem engineBufferArgs_append (t1 t2 : List Act) :
    engineBufferArgs (t1 ++ t2) = engineBufferArgs t1 ++ engineBufferArgs t2 := by
  induction t1 with
  | nil => rfl
  | cons a rest ih => cases a <;> simp [engineBufferArgs, ih]

theorem engineBufferArgs_map_accumulate (chunks : List (List Nat)) :
    engineBufferArgs (chunks.map Act.accumulate) = [] := by
  induction chunks with
  | nil => rfl
  | cons c rest ih => simpa [engineBufferArgs] using ih

theorem engineInvoked_append (t1 t2 : List Act) :
    engineInvoked (t1 ++ t2) = (engineInvoked t1 || engineInvoked t2) := by
  induction t1 with
  | nil => rfl
  | cons a rest ih => simp [engineInvoked, ih, Bool.or_assoc]

theorem respStatus_append_accumulate (chunks : List (List Nat)) (t : List Act) :
    respStatus (chunks.map Act.accumulate ++ t) = respStatus t := by
  induction chunks with
  | nil => rfl
  | cons c rest ih => simpa [respStatus] using ih

theorem successObj_append_accumulate (chunks : List (List Nat)) (t : List Act) :
    successObj (chunks.map Act.accumulate ++ t) = successObj t := by
  induction chunks with
  | nil => rfl
  | cons c rest ih => simpa [successObj] using ih

theorem engineInvoked_map_accumulate (chunks : List (List Nat)) :
    engineInvoked (chunks.map Act.accumulate) = false := by
  induction chunks with
  | nil => rfl
  | cons c rest ih => simpa [engineInvoked, isEngineCall] using ih

/-- Every buffer handed to `transcriptFromBuffer` by the POST handler is the
buffer it was given. -/
theorem post_buffer_calls (ctx : ServerCtx) (eng : Engine) (id : IdVal)
    (buffer : List Nat) (g : Option String) :
    ∀ b ∈ engineBufferArgs (responseTranscriptPost ctx eng id buffer g),
      b = buffer := by
  intro b hb
  cases hpg : parseGrammarStep g with
  | error e =>
    cases hdbg : ctx.debug <;>
      simp [responseTranscriptPost, hpg, hdbg, engineBufferArgs, errorResponse,
        engineBufferArgs_append] at hb
  | ok gr =>
    cases heng : eng.transcriptFromBuffer buffer gr with
    | error e =>
      cases hdbg : ctx.debug <;>
        simp [responseTranscriptPost, hpg, heng, hdbg, engineBufferArgs,
          errorResponse, engineBufferArgs_append] at hb <;>
        exact hb
    | ok td =>
      cases hdbg : ctx.debug <;>
        simp [responseTranscriptPost, hpg, heng, hdbg, engineBufferArgs,
          errorResponse, engineBufferArgs_append] at hb <;>
        exact hb

/-!
## Claims
-/

/-- C1: for every POST request, every byte buffer the request listener hands
to the Engine Adapter (`transcriptFromBuffer`) is exactly the concatenation,
in arrival order, of the body chunks received on the request stream —
byte-identical in order and length. -/
theorem C1_post_buffer_is_chunk_concat (ctx : ServerCtx) (eng : Engine)
    (req : HttpRequest) (hm : req.method = Method.POST) (b : List Nat)
    (hb : b ∈ engineBufferArgs (requestListener ctx eng req)) :
    b = req.chunks.flatten := by
  cases hurl : matchTranscriptPath req.url with
  | false =>
    simp [requestListener, hurl, errorResponse, engineBufferArgs] at hb
  | true =>
    cases hmm : (truthy req.query.model &&
        (req.query.model.getD "" != ctx.modelName)) with
    | true =>
      simp [requestListener, hurl, hm, hmm, errorResponse, engineBufferArgs] at hb
    | false =>
      have hb2 : b ∈ engineBufferArgs (responseTranscriptPost ctx eng
          (chooseId req.query.id req.time)
          (bufferConcat (bodyAccum req.chunks)) req.query.grammar) := by
        simpa [requestListener, hurl, hm, hmm, engineBufferArgs,
          engineBufferArgs_append, engineBufferArgs_map_accumulate] using hb
      have hbuf := post_buffer_calls ctx eng (chooseId req.query.id req.time)
        (bufferConcat (bodyAccum req.chunks)) req.query.grammar b hb2
      rw [hbuf, bodyAccum_id, bufferConcat_flatten]

/-- C1 witness: the two-chunk scenario of §8 — chunks `[82,73]`, `[70,70]`
reach the engine as the single buffer `[82,73,70,70]`. -/
theorem C1_witness :
    [82, 73, 70, 70] = postReq0.chunks.flatten :=
  C1_post_buffer_is_chunk_concat ctx0 eng0 postReq0 rfl [82, 73, 70, 70]
    (by decide)

/-- C2 (amended): for every GET or POST request to the transcript path in
which `model` is present with a non-empty value and differs from the loaded
model name — and which, for GET, carries a non-empty `speech` parameter,
since the missing-`speech` check runs first — the response status is 404,
the Engine Adapter is never invoked, and no body chunk is accumulated before
the rejection. -/
theorem C2_model_mismatch_404 (ctx : ServerCtx) (eng : Engine)
    (req : HttpRequest) (hurl : matchTranscriptPath req.url = true)
    (hmp : truthy req.query.model = true)
    (hne : req.query.model.getD "" ≠ ctx.modelName)
    (hmeth : (req.method = Method.GET ∧ truthy req.query.speech = true) ∨
      req.method = Method.POST) :
    respStatus (requestListener ctx eng req) = some 404 ∧
    engineInvoked (requestListener ctx eng req) = false ∧
    accumulateCount (requestListener ctx eng req) = 0 := by
  have hbne : (req.query.model.getD "" != ctx.modelName) = true :=
    bne_iff_ne.mpr hne
  rcases hmeth with ⟨hm, hs⟩ | hm
  · simp [requestListener, hm, hurl, hs, hbne, hmp, respStatus, engineInvoked,
      accumulateCount, errorResponse, isEngineCall]
  · simp [requestListener, hm, hurl, hbne, hmp, respStatus, engineInvoked,
      accumulateCount, errorResponse, isEngineCall]

/-- C2 witness: `GET /transcript?speech=a.wav&model=wrong` against the loaded
model — 404 and no engine call (§8 scenario). -/
theorem C2_witness :
    respStatus (requestListener ctx0 eng0 c2wreq) = some 404 ∧
    engineInvoked (requestListener ctx0 eng0 c2wreq) = false ∧
    accumulateCount (requestListener ctx0 eng0 c2wreq) = 0 :=
  C2_model_mismatch_404 ctx0 eng0 c2wreq (by decide) (by decide) (by decide)
    (Or.inl ⟨rfl, by decide⟩)

/-- C2 counterexample: a GET with `model=wrong` but no `speech` parameter is
answered 405, not the 404 the claim asserts for every request with a
mismatching model — the missing-`speech` validation runs first. -/
theorem C2_counterexample :
    respStatus (requestListener ctx0 eng0 c2req) = some 405 ∧
    (some 405 : Option Nat) ≠ some 404 := by
  constructor
  · decide
  · decide

/-- Error messages of the form `id ... ...` are never empty. -/
theorem errMsg_ne_empty (x y : String) : (("id " ++ x) ++ y) ≠ "" := by
  intro h
  have hl : (("id " ++ x) ++ y).length = String.length "" :=
    congrArg String.length h
  rw [String.length_append, String.length_append] at hl
  have h3 : String.length "id " = 3 := rfl
  have h0 : String.length "" = 0 := rfl
  omega

/-- C3: every GET request to the transcript path whose query string lacks the
`speech` parameter is answered 405 with a non-empty `error` message, and the
Engine Adapter is never invoked. -/
theorem C3_get_missing_speech_405 (ctx : ServerCtx) (eng : Engine)
    (req : HttpRequest) (hurl : matchTranscriptPath req.url = true)
    (hm : req.method = Method.GET) (hs : req.query.speech = none) :
    respStatus (requestListener ctx eng req) = some 405 ∧
    engineInvoked (requestListener ctx eng req) = false ∧
    ∃ msg, msg ≠ "" ∧
      respErrorBody (requestListener ctx eng req) = some (errorBody msg) := by
  refine ⟨?_, ?_,
    ("id " ++ idToString (chooseId req.query.id req.time)) ++
      " \"speech\" attribute not found in the body request",
    errMsg_ne_empty _ _, ?_⟩ <;>
  simp [requestListener, hm, hurl, hs, truthy, respStatus, respErrorBody,
    engineInvoked, errorResponse, isEngineCall]

/-- C3 witness: `GET /transcript` with no `speech` — 405, no engine call,
non-empty error message. -/
theorem C3_witness :
    respStatus (requestListener ctx0 eng0 c3wreq) = some 405 ∧
    engineInvoked (requestListener ctx0 eng0 c3wreq) = false ∧
    ∃ msg, msg ≠ "" ∧
      respErrorBody (requestListener ctx0 eng0 c3wreq) = some (errorBody msg) :=
  C3_get_missing_speech_405 ctx0 eng0 c3wreq (by decide) rfl rfl

/-- C4: code bug.  With debug enabled, a request that fails — here a GET
whose `grammar` is invalid JSON, answered 415 — increments `activeRequests`
and never decrements it: the decrement sits after the engine call inside the
`try` block, so the catch path leaks one count and the counter does not
return to 0.  A succeeding debug request balances to 0, which is the
evidently intended behavior of the start/finish comments around the
increment and decrement. -/
theorem C4_counter_leak :
    netCounter (requestListener ctxDebug eng0 c4req) = 1 ∧
    respStatus (requestListener ctxDebug eng0 c4req) = some 415 ∧
    netCounter (requestListener ctxDebug eng0 c4okReq) = 0 ∧
    (1 : Int) ≠ 0 := by
  refine ⟨by decide, by decide, by decide, by decide⟩

theorem respErrorBody_append_accumulate (chunks : List (List Nat))
    (t : List Act) :
    respErrorBody (chunks.map Act.accumulate ++ t) = respErrorBody t := by
  induction chunks with
  | nil => rfl
  | cons c rest ih => simpa [respErrorBody] using ih

/-- C5 (amended): for every GET or POST request to the transcript path that
passes the speech and model validations, whose `grammar` parameter is present
with a non-empty value but is not syntactically valid JSON, the handler
answers 415 and produces a response rather than crashing; the failure is
surfaced by the same catch clause as an engine-side failure (same
`transcript function` error shape), not validated up front, and the engine is
never invoked. -/
theorem C5_invalid_grammar_415 (ctx : ServerCtx) (eng : Engine)
    (req : HttpRequest) (hurl : matchTranscriptPath req.url = true)
    (hmodel : (truthy req.query.model &&
      (req.query.model.getD "" != ctx.modelName)) = false)
    (hg : truthy req.query.grammar = true)
    (hgp : jsonParse (req.query.grammar.getD "") = none)
    (hmeth : (req.method = Method.GET ∧ truthy req.query.speech = true) ∨
      req.method = Method.POST) :
    respStatus (requestListener ctx eng req) = some 415 ∧
    engineInvoked (requestListener ctx eng req) = false ∧
    respErrorBody (requestListener ctx eng req) =
      some (errorBody ((("id " ++ idToString (chooseId req.query.id req.time)) ++
        " transcript function ") ++ "SyntaxError: Unexpected token in JSON")) := by
  have hpg : parseGrammarStep req.query.grammar =
      Except.error "SyntaxError: Unexpected token in JSON" := by
    simp [parseGrammarStep, hg, hgp]
  rcases hmeth with ⟨hm, hs⟩ | hm
  · cases hdbg : ctx.debug <;>
      simp [requestListener, hm, hurl, hs, hmodel, responseTranscriptGet, hpg,
        hdbg, respStatus, respErrorBody, engineInvoked, errorResponse,
        isEngineCall]
  · cases hdbg : ctx.debug <;>
      simp [requestListener, hm, hurl, hmodel, responseTranscriptPost, hpg,
        hdbg, respStatus, respErrorBody, engineInvoked, errorResponse,
        isEngineCall, respStatus_append_accumulate, respErrorBody_append_accumulate,
        engineInvoked_append, engineInvoked_map_accumulate]

/-- C5 witness: `GET /transcript?speech=a.wav&grammar=[` — 415 via the catch
path, engine never invoked. -/
theorem C5_witness :
    respStatus (requestListener ctx0 eng0 c5wreq) = some 415 ∧
    engineInvoked (requestListener ctx0 eng0 c5wreq) = false ∧
    respErrorBody (requestListener ctx0 eng0 c5wreq) =
      some (errorBody ((("id " ++ idToString (chooseId c5wreq.query.id c5wreq.time)) ++
        " transcript function ") ++ "SyntaxError: Unexpected token in JSON")) :=
  C5_invalid_grammar_415 ctx0 eng0 c5wreq (by decide) (by decide) (by decide)
    (by rfl) (Or.inl ⟨rfl, by decide⟩)

/-- C5 counterexample: a `grammar` parameter supplied with an empty value is
present and is not valid JSON, yet the handler treats it as absent (empty
strings are falsy), invokes the engine, and a succeeding engine yields 200 —
not the 415 the claim asserts. -/
theorem C5_counterexample :
    respStatus (requestListener ctx0 eng0 c5req) = some 200 ∧
    engineInvoked (requestListener ctx0 eng0 c5req) = true ∧
    (some 200 : Option Nat) ≠ some 415 := by
  refine ⟨by decide, by decide, by decide⟩

theorem find_map_update (f : List (String × Json)) (k k2 : String) (v : Json)
    (h : (k2 == k) = false) :
    (f.map (fun p => if p.1 == k2 then (k2, v) else p)).find?
        (fun p => p.1 == k) =
      f.find? (fun p => p.1 == k) := by
  induction f with
  | nil => rfl
  | cons p rest ih =>
    rw [List.map_cons]
    by_cases h1 : (p.1 == k2) = true
    · have he : p.1 = k2 := beq_iff_eq.mp h1
      have hpk : (p.1 == k) = false := by rw [he]; exact h
      rw [if_pos h1]
      simp only [List.find?_cons, h, hpk]
      exact ih
    · rw [if_neg h1]
      by_cases h2 : (p.1 == k) = true
      · simp only [List.find?_cons, h2]
      · have h2' : (p.1 == k) = false := eq_false_of_ne_true h2
        simp only [List.find?_cons, h2']
        exact ih

theorem lookupField_upsert_ne (f : List (String × Json)) (k k2 : String)
    (v : Json) (h : (k2 == k) = false) :
    lookupField (upsert f k2 v) k = lookupField f k := by
  unfold upsert lookupField
  by_cases hany : (f.any (fun p => p.1 == k2)) = true
  · rw [if_pos hany, find_map_update f k k2 v h]
  · rw [if_neg hany, List.find?_append]
    have hone : ([((k2 : String), v)].find? (fun p => p.1 == k)) = none := by
      simp only [List.find?_cons, h]
      rfl
    rw [hone, Option.or_none]

/-- Spreading fields that do not contain key `k` leaves the lookup of `k`
unchanged. -/
theorem lookupField_spread_of_not_hasKey (ext : List (String × Json))
    (base : List (String × Json)) (k : String) (h : hasKey ext k = false) :
    lookupField (spreadInto base ext) k = lookupField base k := by
  induction ext generalizing base with
  | nil => rfl
  | cons p rest ih =>
    simp only [hasKey, List.any_cons, Bool.or_eq_false_iff] at h
    calc lookupField (spreadInto base (p :: rest)) k
        = lookupField (spreadInto (upsert base p.1 p.2) rest) k := rfl
      _ = lookupField (upsert base p.1 p.2) k := ih (upsert base p.1 p.2) h.2
      _ = lookupField base k := lookupField_upsert_ne base k p.1 p.2 h.1

/-- In a success envelope whose engine result does not itself carry an `id`
key, the `id` field is the request id. -/
theorem lookupField_successFields_id (id : IdVal) (lat : Nat)
    (result : List (String × Json)) (h : hasKey result "id" = false) :
    lookupField (successFields id lat result) "id" = some (idJson id) := by
  unfold successFields
  rw [lookupField_spread_of_not_hasKey result _ _ h]
  simp [lookupField, List.find?]

/-- In a success envelope whose engine result does not itself carry a
`latency` key, the `latency` field is the engine latency. -/
theorem lookupField_successFields_latency (id : IdVal) (lat : Nat)
    (result : List (String × Json)) (h : hasKey result "latency" = false) :
    lookupField (successFields id lat result) "latency" =
      some (Json.num (toString lat)) := by
  unfold successFields
  rw [lookupField_spread_of_not_hasKey result _ _ h]
  simp [lookupField, List.find?, idJson]

/-- A truthy (present, non-empty) id parameter is echoed verbatim. -/
theorem idJson_chooseId_truthy (o : Option String) (t : Nat)
    (h : truthy o = true) : idJson (chooseId o t) = Json.str (o.getD "") := by
  cases o with
  | none => simp [truthy] at h
  | some s =>
    have hs : s.isEmpty = false := by simpa [truthy] using h
    simp [chooseId, hs, idJson, Option.getD]

/-- A falsy (absent or empty) id parameter is replaced by the timestamp. -/
theorem idJson_chooseId_falsy (o : Option String) (t : Nat)
    (h : truthy o = false) : idJson (chooseId o t) = Json.num (toString t) := by
  cases o with
  | none => simp [chooseId, idJson]
  | some s =>
    have hs : s.isEmpty = true := by simpa [truthy] using h
    simp [chooseId, hs, idJson]

/-- C6 (amended): for every successful request to the transcript path, the
response envelope is the success field list carrying `id` and `latency`
alongside the engine result; provided the engine result does not itself
carry `id` or `latency` keys (spread order lets it override them), the
response `id` equals the request id, which echoes the `id` parameter
verbatim when it is supplied with a non-empty value, and otherwise is the
millisecond timestamp captured at the start of handling — a supplied empty
`id` is falsy and is also replaced by the timestamp. -/
theorem C6_id_latency_echo (ctx : ServerCtx) (eng : Engine)
    (req : HttpRequest) (hurl : matchTranscriptPath req.url = true)
    (hmodel : (truthy req.query.model &&
      (req.query.model.getD "" != ctx.modelName)) = false)
    (g : Option Json) (td : EngineResult)
    (hgp : parseGrammarStep req.query.grammar = Except.ok g)
    (hid : hasKey td.result "id" = false)
    (hlat : hasKey td.result "latency" = false)
    (hmeth : (req.method = Method.GET ∧ truthy req.query.speech = true ∧
        eng.transcriptFromFile (req.query.speech.getD "") g = Except.ok td) ∨
      (req.method = Method.POST ∧
        eng.transcriptFromBuffer (bufferConcat (bodyAccum req.chunks)) g =
          Except.ok td)) :
    respStatus (requestListener ctx eng req) = some 200 ∧
    successObj (requestListener ctx eng req) =
      some (successFields (chooseId req.query.id req.time) td.latency td.result) ∧
    lookupField (successFields (chooseId req.query.id req.time) td.latency
        td.result) "id" = some (idJson (chooseId req.query.id req.time)) ∧
    lookupField (successFields (chooseId req.query.id req.time) td.latency
        td.result) "latency" = some (Json.num (toString td.latency)) ∧
    (truthy req.query.id = true →
      idJson (chooseId req.query.id req.time) = Json.str (req.query.id.getD "")) ∧
    (truthy req.query.id = false →
      idJson (chooseId req.query.id req.time) = Json.num (toString req.time)) := by
  have hobj : respStatus (requestListener ctx eng req) = some 200 ∧
      successObj (requestListener ctx eng req) =
        some (successFields (chooseId req.query.id req.time) td.latency
          td.result) := by
    rcases hmeth with ⟨hm, hs, heng⟩ | ⟨hm, heng⟩
    · cases hdbg : ctx.debug <;>
        simp [requestListener, hm, hurl, hs, hmodel, responseTranscriptGet,
          hgp, heng, hdbg, successObj, respStatus]
    · cases hdbg : ctx.debug <;>
        simp [requestListener, hm, hurl, hmodel, responseTranscriptPost, hgp,
          heng, hdbg, successObj, respStatus, successObj_append_accumulate,
          respStatus_append_accumulate]
  exact ⟨hobj.1, hobj.2,
    lookupField_successFields_id _ _ _ hid,
    lookupField_successFields_latency _ _ _ hlat,
    fun h => idJson_chooseId_truthy _ _ h,
    fun h => idJson_chooseId_falsy _ _ h⟩

/-- C6 witness: `GET /transcript?speech=a.wav&id=tok-1` against a succeeding
engine — 200, envelope carries `id` and `latency`, and the id is echoed. -/
theorem C6_witness :
    respStatus (requestListener ctx0 eng0 c6wreq) = some 200 ∧
    successObj (requestListener ctx0 eng0 c6wreq) =
      some (successFields (chooseId c6wreq.query.id c6wreq.time)
        okResult.latency okResult.result) ∧
    lookupField (successFields (chooseId c6wreq.query.id c6wreq.time)
        okResult.latency okResult.result) "id" =
      some (idJson (chooseId c6wreq.query.id c6wreq.time)) ∧
    lookupField (successFields (chooseId c6wreq.query.id c6wreq.time)
        okResult.latency okResult.result) "latency" =
      some (Json.num (toString okResult.latency)) ∧
    (truthy c6wreq.query.id = true →
      idJson (chooseId c6wreq.query.id c6wreq.time) =
        Json.str (c6wreq.query.id.getD "")) ∧
    (truthy c6wreq.query.id = false →
      idJson (chooseId c6wreq.query.id c6wreq.time) =
        Json.num (toString c6wreq.time)) :=
  C6_id_latency_echo ctx0 eng0 c6wreq (by decide) (by decide) none okResult
    rfl (by decide) (by decide) (Or.inl ⟨rfl, by decide, rfl⟩)

/-- C6 counterexample: an `id` parameter supplied with an empty value is
present, yet the response id is the timestamp `99`, not the verbatim echo
`""` the claim asserts for every supplied id. -/
theorem C6_counterexample :
    successObj (requestListener ctx0 eng0 c6req) =
      some (successFields (IdVal.num 99) okResult.latency okResult.result) ∧
    lookupField (successFields (IdVal.num 99) okResult.latency okResult.result)
      "id" = some (Json.num "99") ∧
    some (Json.num "99") ≠ some (Json.str "") := by
  refine ⟨rfl, rfl, ?_⟩
  intro hcontra
  injection hcontra with h2
  exact Json.noConfusion h2

/-- C7: code bug.  The error body is built by raw string interpolation with
no JSON escaping, so any message containing a double quote yields a body
that is not well-formed JSON.  The missing-`speech` message itself embeds
`"speech"` in quotes: every such 405 response (here
`GET /transcript?id=7` with no `speech`) has a body that no JSON parser
accepts, contradicting the claim that every error response is well-formed
JSON with a single `error` field.  The content type is still set first and
the status is drawn from the documented set. -/
theorem C7_error_body_malformed :
    (requestListener ctx0 eng0 c3wreq).head? = some Act.setContentType ∧
    respStatus (requestListener ctx0 eng0 c3wreq) = some 405 ∧
    respErrorBody (requestListener ctx0 eng0 c3wreq) =
      some (errorBody "id 7 \"speech\" attribute not found in the body request") ∧
    (jsonParse (errorBody
      "id 7 \"speech\" attribute not found in the body request")).isSome
        = false := by
  refine ⟨rfl, by decide, by decide, by decide⟩

/-- C8: every request whose raw URL does not start with the `/transcript`
prefix is answered 405 by a trace that does not depend on the method
(rejected before method dispatch), and every transcript-path request whose
method is neither GET nor POST is answered 405; the engine is never invoked
in either case. -/
theorem C8_unsupported_path_or_method_405 (ctx : ServerCtx) (eng : Engine)
    (req : HttpRequest) :
    (matchTranscriptPath req.url = false →
      requestListener ctx eng req =
        [Act.setContentType,
         Act.respondError 405 (errorBody ("path not allowed " ++ req.url))] ∧
      respStatus (requestListener ctx eng req) = some 405 ∧
      engineInvoked (requestListener ctx eng req) = false) ∧
    (∀ verb, matchTranscriptPath req.url = true →
      req.method = Method.other verb →
      respStatus (requestListener ctx eng req) = some 405 ∧
      engineInvoked (requestListener ctx eng req) = false) := by
  constructor
  · intro hurl
    refine ⟨?_, ?_, ?_⟩ <;>
      simp [requestListener, hurl, errorResponse, respStatus, engineInvoked,
        isEngineCall]
  · intro verb hurl hm
    constructor <;>
      simp [requestListener, hurl, hm, errorResponse, respStatus,
        engineInvoked, isEngineCall]

/-- C8 witness: `GET /other` is rejected with a method-independent 405
trace, and `PUT /transcript` is answered 405. -/
theorem C8_witness :
    requestListener ctx0 eng0 c8preq =
      [Act.setContentType,
       Act.respondError 405 (errorBody ("path not allowed " ++ c8preq.url))] ∧
    respStatus (requestListener ctx0 eng0 c8mreq) = some 405 :=
  ⟨((C8_unsupported_path_or_method_405 ctx0 eng0 c8preq).1 (by decide)).1,
   ((C8_unsupported_path_or_method_405 ctx0 eng0 c8mreq).2 "PUT" (by decide)
     rfl).1⟩

/-- C9: a missing (falsy) `--model` argument makes startup fail with exit
code 1; every shutdown invocation — for any signal name, and for the
uncaught-exception path — releases the Model exactly once before exiting and
exits with code 0. -/
theorem C9_startup_and_shutdown (args : CliArgs)
    (h : truthy args.model = false) (s e : String) :
    validateArgs args = Except.error 1 ∧
    countFreeModel (eventsBeforeExit (shutdown s)) = 1 ∧
    exitCodes (shutdown s) = [0] ∧
    countFreeModel (eventsBeforeExit (uncaughtExceptionHandler e)) = 1 ∧
    exitCodes (uncaughtExceptionHandler e) = [0] := by
  refine ⟨?_, ?_, ?_, ?_, ?_⟩ <;>
    simp [validateArgs, h, shutdown, uncaughtExceptionHandler, countFreeModel,
      eventsBeforeExit, exitCodes, isFreeModel, isExitEvent, List.countP_cons,
      List.takeWhile, List.filterMap]

/-- C9 witness: no `--model` argument — exit 1; `SIGTERM` and an uncaught
error — one model release each, exit 0. -/
theorem C9_witness :
    validateArgs argsNoModel = Except.error 1 ∧
    countFreeModel (eventsBeforeExit (shutdown "SIGTERM")) = 1 ∧
    exitCodes (shutdown "SIGTERM") = [0] ∧
    countFreeModel (eventsBeforeExit (uncaughtExceptionHandler "boom")) = 1 ∧
    exitCodes (uncaughtExceptionHandler "boom") = [0] :=
  C9_startup_and_shutdown argsNoModel (by decide) "SIGTERM" "boom"

/-- C10 (amended): a POST to the transcript path that passes model
validation, whose grammar parameter is absent or parses as JSON, and whose
body stream delivers zero chunks still invokes the Engine Adapter — with
exactly one call carrying the empty buffer — rather than answering a
missing-audio-source 405: the missing-audio check applies only to GET. -/
theorem C10_empty_body_engine_invoked (ctx : ServerCtx) (eng : Engine)
    (req : HttpRequest) (hurl : matchTranscriptPath req.url = true)
    (hm : req.method = Method.POST)
    (hmodel : (truthy req.query.model &&
      (req.query.model.getD "" != ctx.modelName)) = false)
    (g : Option Json)
    (hgp : parseGrammarStep req.query.grammar = Except.ok g)
    (hchunks : req.chunks = []) :
    engineBufferArgs (requestListener ctx eng req) = [[]] ∧
    respStatus (requestListener ctx eng req) ≠ some 405 := by
  cases heng : eng.transcriptFromBuffer [] g with
  | error e =>
    cases hdbg : ctx.debug <;>
      constructor <;>
        simp [requestListener, hm, hurl, hmodel, hchunks, bodyAccum,
          bufferConcat, responseTranscriptPost, hgp, heng, hdbg,
          engineBufferArgs, respStatus, errorResponse]
  | ok td =>
    cases hdbg : ctx.debug <;>
      constructor <;>
        simp [requestListener, hm, hurl, hmodel, hchunks, bodyAccum,
          bufferConcat, responseTranscriptPost, hgp, heng, hdbg,
          engineBufferArgs, respStatus, errorResponse]

/-- C10 witness: `POST /transcript` with an empty body stream — one engine
call with the empty buffer, and no 405. -/
theorem C10_witness :
    engineBufferArgs (requestListener ctx0 eng0 c10wreq) = [[]] ∧
    respStatus (requestListener ctx0 eng0 c10wreq) ≠ some 405 :=
  C10_empty_body_engine_invoked ctx0 eng0 c10wreq (by decide) rfl (by decide)
    none rfl rfl

/-- C10 counterexample: a POST with an empty body whose grammar parameter is
present but invalid JSON passes model validation, yet the engine is never
invoked — the grammar parse throws first and the request is answered 415,
refuting the claim that every such POST reaches the Engine Adapter. -/
theorem C10_counterexample :
    engineInvoked (requestListener ctx0 eng0 c10req) = false ∧
    respStatus (requestListener ctx0 eng0 c10req) = some 415 := by
  refine ⟨by decide, by decide⟩
